import Mathlib

/-!
Shallow embedding of the KellerBot message-event orchestration engine:
the message entity (server/message_manager.py, class MessageObject), the
manager state and its trigger / generation / catalog operations
(class MessageManager), the polling scheduler (server/bot_controller.py)
and the platform poll step (groupme/groupme_interface.py).

Modelling conventions: wall-clock readings are naturals (milliseconds for
entity ids, seconds elsewhere); Python floats are rationals; a Python
exception is the error side of an Except value; in-place mutation of an
object is explicit state passing, with the catalog list holding the final
value of an entity once its batch resolves.
-/

/-- Message entity: the fields set by MessageObject.__init__ together with
the flags mutated over its lifecycle. -/
structure MessageObject where
  id : String
  message_type : String
  reply_to_id : Option String
  original_message : Option String
  username : Option String
  timestamp : Nat
  generated_messages : List String
  selected_message : Option String
  sent : Bool
  deleted : Bool
  generating : Bool
deriving DecidableEq

/-- MessageObject.__init__: the id is str(int(time.time() * 1000)), so it is
the decimal rendering of the millisecond clock reading at creation. -/
def mkMessageObject (message_type : String) (reply_to_id : Option String)
    (original_message : Option String) (username : Option String)
    (time_ms : Nat) : MessageObject :=
  { id := toString time_ms
    message_type := message_type
    reply_to_id := reply_to_id
    original_message := original_message
    username := username
    timestamp := time_ms
    generated_messages := []
    selected_message := none
    sent := false
    deleted := false
    generating := false }

/-- MessageObject.add_generated_message: append one candidate text. -/
def add_generated_message (m : MessageObject) (message : String) : MessageObject :=
  { m with generated_messages := m.generated_messages ++ [message] }

/-- MessageObject.start_generation. -/
def start_generation (m : MessageObject) : MessageObject :=
  { m with generating := true }

/-- MessageObject.stop_generation. -/
def stop_generation (m : MessageObject) : MessageObject :=
  { m with generating := false }

/-- Configuration document: the six keys of the default config in
MessageManager.load_config. Numeric floats are rationals, the polling
interval is the integer the validator compares against 0 and 3600. -/
structure Config where
  random_messages_per_day : ℚ
  reply_chance_per_like : ℚ
  minimum_reply_chance : ℚ
  message_generation_tries : Nat
  polling_interval_seconds : Int
  introduction_prompt : String
deriving DecidableEq

/-- A configuration update: a dict that may carry any subset of the keys
(a missing key leaves the stored value alone, as dict.update does). -/
structure NewConfig where
  random_messages_per_day : Option ℚ
  reply_chance_per_like : Option ℚ
  minimum_reply_chance : Option ℚ
  message_generation_tries : Option Nat
  polling_interval_seconds : Option Int
  introduction_prompt : Option String
deriving DecidableEq

/-- self.config.update(new_config): merge the supplied keys over the stored
document. -/
def Config.applyUpdate (c : Config) (n : NewConfig) : Config :=
  { random_messages_per_day := n.random_messages_per_day.getD c.random_messages_per_day
    reply_chance_per_like := n.reply_chance_per_like.getD c.reply_chance_per_like
    minimum_reply_chance := n.minimum_reply_chance.getD c.minimum_reply_chance
    message_generation_tries := n.message_generation_tries.getD c.message_generation_tries
    polling_interval_seconds := n.polling_interval_seconds.getD c.polling_interval_seconds
    introduction_prompt := n.introduction_prompt.getD c.introduction_prompt }

/-- MessageManager.update_config: validate the polling interval when the key
is present, raising (error) before any mutation; otherwise merge and save. -/
def update_config (c : Config) (n : NewConfig) : Except String Config :=
  match n.polling_interval_seconds with
  | some polling_interval =>
    if polling_interval ≤ 0 then
      Except.error "Polling interval must be greater than 0 seconds"
    else if polling_interval > 3600 then
      Except.error "Polling interval cannot be more than 3600 seconds (1 hour)"
    else
      Except.ok (c.applyUpdate n)
  | none => Except.ok (c.applyUpdate n)

/-- The stored configuration after an update_config call: the ValueError is
raised before self.config.update runs, so an error leaves the store as it was. -/
def update_config_state (c : Config) (n : NewConfig) : Config :=
  match update_config c n with
  | Except.ok c2 => c2
  | Except.error _ => c

/-- MessageManager state: the stored config, the catalog list, and the daily
counter pair (last_random_message_time in wall-clock seconds). -/
structure ManagerState where
  config : Config
  messages : List MessageObject
  last_random_message_time : Nat
  messages_per_day : Nat
deriving DecidableEq

/-- MessageManager.reset_daily_counter. -/
def reset_daily_counter (st : ManagerState) (now : Nat) : ManagerState :=
  { st with messages_per_day := 0, last_random_message_time := now }

/-- The per-cycle probability of MessageManager.should_send_random_message:
cycles_per_day = 86400 / polling_interval_seconds and
probability = random_messages_per_day / cycles_per_day (true division). -/
def probability_per_cycle (config : Config) : ℚ :=
  let seconds_per_day : ℚ := 86400
  let cycles_per_day : ℚ := seconds_per_day / (config.polling_interval_seconds : ℚ)
  config.random_messages_per_day / cycles_per_day

/-- MessageManager.should_send_random_message: lazily reset the daily counter
when at least one full day has elapsed, then compare a uniform sample in
[0,1) against the per-cycle probability. -/
def should_send_random_message (st : ManagerState) (now : Nat) (sample : ℚ) :
    Bool × ManagerState :=
  let st1 := if (now - st.last_random_message_time) / 86400 ≥ 1 then
               reset_daily_counter st now
             else st
  (decide (sample < probability_per_cycle st1.config), st1)

instance : DecidableEq (Except String String) := fun a b =>
  match a, b with
  | Except.error x, Except.error y =>
    if h : x = y then isTrue (by rw [h])
    else isFalse (by intro hc; cases hc; exact h rfl)
  | Except.error _, Except.ok _ => isFalse (by intro hc; cases hc)
  | Except.ok _, Except.error _ => isFalse (by intro hc; cases hc)
  | Except.ok x, Except.ok y =>
    if h : x = y then isTrue (by rw [h])
    else isFalse (by intro hc; cases hc; exact h rfl)

/-- One generation attempt: its outcome (text or raised exception rendered as
a string) together with the instant it resolves, used only to talk about
completion schedules. -/
structure GenTask where
  completion_time : Nat
  outcome : Except String String
deriving DecidableEq

/-- asyncio.gather(*tasks, return_exceptions=True): resolves once every task
has, and returns the outcomes in the order the awaitables were passed,
irrespective of when each one completed. -/
def gather (tasks : List GenTask) : List (Except String String) :=
  tasks.map GenTask.outcome

/-- The candidate text recorded for one gathered outcome in
MessageManager._execute_generation_tasks: the text itself on success, the
human-readable error marker on failure. -/
def renderOutcome (message_type : String) (r : Except String String) : String :=
  match r with
  | Except.error e => "Error generating " ++ message_type ++ ": " ++ e
  | Except.ok message => message

/-- MessageManager._execute_generation_tasks: gather every task and append
one candidate per outcome to the entity. -/
def execute_generation_tasks (message_obj : MessageObject) (tasks : List GenTask)
    (message_type : String) : MessageObject :=
  (gather tasks).foldl
    (fun acc r => add_generated_message acc (renderOutcome message_type r))
    message_obj

/-- Modelled from the spec: the sequence of outcomes sorted by the instant
each attempt resolved, i.e. the attempt-completion order the spec says
candidate insertion follows. Not a source function; stated only to compare
against the order execute_generation_tasks actually produces. -/
def insertByTime (task : GenTask) : List GenTask → List GenTask
  | [] => [task]
  | t2 :: rest =>
    if task.completion_time ≤ t2.completion_time then task :: t2 :: rest
    else t2 :: insertByTime task rest

/-- Modelled from the spec: stable sort of the tasks by completion time. -/
def sortByTime : List GenTask → List GenTask
  | [] => []
  | t :: rest => insertByTime t (sortByTime rest)

/-- Modelled from the spec: outcomes listed in attempt-completion order. -/
def completionOrder (tasks : List GenTask) : List (Except String String) :=
  (sortByTime tasks).map GenTask.outcome

/-- Reassign completion instants without touching outcomes: two runs of the
same batch under different completion schedules. -/
def retime (f : Nat → Nat) (tasks : List GenTask) : List GenTask :=
  tasks.map (fun task => { completion_time := f task.completion_time, outcome := task.outcome })

/-- MessageManager.generate_random_message: create the entity generating,
register it, launch message_generation_tries attempts, run them through the
shared helper, flip generating off, bump the daily counter. The attempt
function gives the outcome of each launched task by its launch index. -/
def generate_random_message (st : ManagerState) (time_ms : Nat) (now : Nat)
    (attempt : Nat → GenTask) : MessageObject × ManagerState :=
  let message_obj := start_generation (mkMessageObject "random" none none none time_ms)
  let tasks := (List.range st.config.message_generation_tries).map attempt
  let finished := stop_generation (execute_generation_tasks message_obj tasks "random")
  (finished,
    { st with
        messages := st.messages ++ [finished]
        messages_per_day := st.messages_per_day + 1
        last_random_message_time := now })

/-- Whether pat occurs at the head of s. -/
def matchesAt (pat s : List Char) : Bool :=
  match pat, s with
  | [], _ => true
  | _ :: _, [] => false
  | p :: ps, c :: cs => p == c && matchesAt ps cs

/-- Whether pat occurs anywhere in s. -/
def hasSubList (pat : List Char) : List Char → Bool
  | [] => matchesAt pat []
  | c :: cs => matchesAt pat (c :: cs) || hasSubList pat cs

/-- Python substring containment, pat in s. -/
def strHasSub (pat s : String) : Bool :=
  hasSubList pat.data s.data

/-- The reply probability of MessageManager.generate_reply_message:
min(reply_chance_per_like * likes, 1.0), plus 1 when the text contains the
literal substring Keller or keller, floored at minimum_reply_chance. -/
def replyProbability (config : Config) (likes : Nat) (original_message : String) : ℚ :=
  let base := min (config.reply_chance_per_like * (likes : ℚ)) 1
  let boosted :=
    if strHasSub "Keller" original_message || strHasSub "keller" original_message then
      base + 1
    else base
  if boosted < config.minimum_reply_chance then config.minimum_reply_chance
  else boosted

/-- MessageManager.generate_reply_message: skip (returning none) when the
uniform sample exceeds the reply probability; otherwise create the reply
entity, run the batch, and register the finished entity. -/
def generate_reply_message (st : ManagerState) (reply_to_id : String)
    (original_message : String) (likes : Nat) (username : String)
    (sample : ℚ) (time_ms : Nat) (attempt : Nat → GenTask) :
    Option MessageObject × ManagerState :=
  let reply_probability := replyProbability st.config likes original_message
  if sample > reply_probability then (none, st)
  else
    let message_obj := start_generation
      (mkMessageObject "reply" (some reply_to_id) (some original_message)
        (some username) time_ms)
    let tasks := (List.range st.config.message_generation_tries).map attempt
    let finished := stop_generation (execute_generation_tasks message_obj tasks "reply")
    (some finished, { st with messages := st.messages ++ [finished] })

/-- MessageManager.get_message_by_id: first entity whose id matches, if any. -/
def get_message_by_id (messages : List MessageObject) (message_id : String) :
    Option MessageObject :=
  messages.find? (fun m => m.id == message_id)

/-- The list after msg.sent = True on the first entity with the given id
(no change when absent), as MessageManager.mark_message_sent does. -/
def set_sent (message_id : String) : List MessageObject → List MessageObject
  | [] => []
  | m :: rest =>
    if m.id == message_id then { m with sent := true } :: rest
    else m :: set_sent message_id rest

/-- The list after msg.deleted = True on the first entity with the given id
(no change when absent), as MessageManager.delete_message does. -/
def set_deleted (message_id : String) : List MessageObject → List MessageObject
  | [] => []
  | m :: rest =>
    if m.id == message_id then { m with deleted := true } :: rest
    else m :: set_deleted message_id rest

/-- MessageManager.mark_message_sent. -/
def mark_message_sent (st : ManagerState) (message_id : String) : ManagerState :=
  { st with messages := set_sent message_id st.messages }

/-- MessageManager.delete_message. -/
def delete_message (st : ManagerState) (message_id : String) : ManagerState :=
  { st with messages := set_deleted message_id st.messages }

/-- A raw message as returned by the platform backend to
GroupMeInterface.poll_new_messages: created_at is the platform timestamp in
seconds, favorited_by the list of users who liked it. -/
structure RawMsg where
  id : String
  text : String
  user_id : String
  name : String
  created_at : Nat
  favorited_by : List String
deriving DecidableEq

/-- The dict poll_new_messages builds for a message it routes onward. -/
structure MessageInfo where
  id : String
  text : String
  user_id : String
  name : String
  created_at : Nat
  likes : Nat
  group_id : String
  reply_to_id : String
  username : String
deriving DecidableEq

/-- The per-message extraction inside poll_new_messages. -/
def mkMessageInfo (bot_group_id : String) (msg : RawMsg) : MessageInfo :=
  { id := msg.id
    text := msg.text
    user_id := msg.user_id
    name := msg.name
    created_at := msg.created_at
    likes := msg.favorited_by.length
    group_id := bot_group_id
    reply_to_id := msg.id
    username := msg.name }

/-- The filter inside poll_new_messages: keep only messages newer than the
cursor and not authored by the current (bot) user. -/
def newForeign (last_message_time : Nat) (current_user_id : String)
    (msgs : List RawMsg) : List RawMsg :=
  msgs.filter (fun msg =>
    decide (last_message_time < msg.created_at) && msg.user_id != current_user_id)

/-- GroupMeInterface.poll_new_messages, given the stored cursor
last_message_time and the backend response: returns the routed list (empty on
the first run, i.e. while the cursor is 0) and the new cursor, advanced to the
newest filtered message when any were found. max over a nonempty Nat list is
taken as a fold from 0. -/
def poll_new_messages (last_message_time : Nat) (current_user_id : String)
    (bot_group_id : String) (backend : List RawMsg) :
    List MessageInfo × Nat :=
  let first_run := last_message_time == 0
  let new_messages :=
    (newForeign last_message_time current_user_id backend).map (mkMessageInfo bot_group_id)
  let new_cursor :=
    if new_messages.isEmpty then last_message_time
    else new_messages.foldl (fun acc m => max acc m.created_at) 0
  (if first_run then [] else new_messages, new_cursor)

/-- What one polling cycle reports: the error its handler logged, if any, the
number of reply generations launched, and whether the random generation was
launched. -/
structure CycleReport where
  logged_error : Option String
  replies_launched : Nat
  random_launched : Bool
deriving DecidableEq

/-- The try-block of BotController._process_polling_cycle: fetch new messages
(which may raise), launch one fire-and-forget reply generation per message,
then run the once-per-cycle random trigger. -/
def polling_cycle_body (fetch : Except String (List MessageInfo))
    (should_random : Bool) : Except String CycleReport := do
  let new_messages ← fetch
  pure { logged_error := none
         replies_launched := new_messages.length
         random_launched := should_random }

/-- BotController._process_polling_cycle: the body runs under a handler that
catches every exception, logs it, and returns normally — so this call itself
never raises. -/
def process_polling_cycle (fetch : Except String (List MessageInfo))
    (should_random : Bool) : Except String CycleReport :=
  match polling_cycle_body fetch should_random with
  | Except.error e =>
    Except.ok { logged_error := some ("Error processing polling cycle: " ++ e)
                replies_launched := 0
                random_launched := false }
  | Except.ok report => Except.ok report

/-- The outcome of one turn of the while-loop in BotController._polling_loop:
either the loop continues after sleeping sleep_seconds, or it breaks. -/
inductive LoopStep where
  | continues (report : CycleReport) (sleep_seconds : Nat)
  | stopped
deriving DecidableEq

/-- One turn of the while-loop in BotController._polling_loop: a cancellation
breaks the loop; otherwise the cycle runs and the loop sleeps the configured
interval, or 60 seconds in the except-branch taken only when the cycle call
itself raised. -/
def polling_loop_iteration (cancelled : Bool) (polling_interval : Nat)
    (fetch : Except String (List MessageInfo)) (should_random : Bool) : LoopStep :=
  if cancelled then LoopStep.stopped
  else
    match process_polling_cycle fetch should_random with
    | Except.ok report => LoopStep.continues report polling_interval
    | Except.error e =>
      LoopStep.continues
        { logged_error := some e, replies_launched := 0, random_launched := false } 60

/-- A concrete configuration mirroring the defaults of load_config. -/
def testConfig : Config :=
  { random_messages_per_day := 5
    reply_chance_per_like := 3/10
    minimum_reply_chance := 1/100
    message_generation_tries := 3
    polling_interval_seconds := 120
    introduction_prompt := "hi" }

/-- A configuration whose daily target equals the cycles per day at a
120-second interval (86400 / 120 = 720). -/
def testConfigFullRate : Config :=
  { testConfig with random_messages_per_day := 720 }

/-- A fresh manager state over testConfig. -/
def testState : ManagerState :=
  { config := testConfig, messages := [], last_random_message_time := 0
    messages_per_day := 0 }

/-- A fresh manager state over testConfigFullRate. -/
def testStateFullRate : ManagerState :=
  { testState with config := testConfigFullRate }

/-- A manager state holding one catalog entity with id 77. -/
def testStateWithEntity : ManagerState :=
  { testState with messages := [mkMessageObject "manual" none none none 77] }

/-- A config update carrying only polling_interval_seconds = 0. -/
def updateZero : NewConfig :=
  { random_messages_per_day := none, reply_chance_per_like := none
    minimum_reply_chance := none, message_generation_tries := none
    polling_interval_seconds := some 0, introduction_prompt := none }

/-- A config update carrying only polling_interval_seconds = 3601. -/
def updateTooLarge : NewConfig :=
  { updateZero with polling_interval_seconds := some 3601 }

/-- Three attempts: two successes and one failure, the failure resolving
first and the first success last. -/
def attemptsABFail : Nat → GenTask := fun i =>
  if i == 0 then { completion_time := 5, outcome := Except.ok "A" }
  else if i == 1 then { completion_time := 3, outcome := Except.ok "B" }
  else { completion_time := 1, outcome := Except.error "boom" }

/-- A backend response holding only a message authored by the bot itself. -/
def backendOwnOnly : List RawMsg :=
  [{ id := "m1", text := "hello", user_id := "botuser", name := "Bot"
     created_at := 3, favorited_by := [] }]

/-- A backend response holding one foreign message. -/
def backendForeign : List RawMsg :=
  [{ id := "m2", text := "yo", user_id := "alice", name := "Alice"
     created_at := 5, favorited_by := ["u1"] }]

/-! Helper lemmas shared by several results below. -/

theorem foldl_add_messages (message_type : String) (l : List (Except String String))
    (m : MessageObject) :
    (l.foldl (fun acc r => add_generated_message acc (renderOutcome message_type r))
        m).generated_messages
      = m.generated_messages ++ l.map (renderOutcome message_type) := by
  induction l generalizing m with
  | nil => simp
  | cons x xs ih =>
    rw [List.foldl_cons, ih]
    simp [add_generated_message]

theorem execute_messages (m : MessageObject) (tasks : List GenTask)
    (message_type : String) :
    (execute_generation_tasks m tasks message_type).generated_messages
      = m.generated_messages
          ++ tasks.map (fun task => renderOutcome message_type task.outcome) := by
  unfold execute_generation_tasks gather
  rw [foldl_add_messages]
  simp [List.map_map, Function.comp]

theorem find_set_sent (message_id : String) (l : List MessageObject)
    (m : MessageObject) (h : l.find? (fun x => x.id == message_id) = some m) :
    (set_sent message_id l).find? (fun x => x.id == message_id)
      = some { m with sent := true } := by
  induction l with
  | nil => simp [List.find?] at h
  | cons x xs ih =>
    cases hx : (x.id == message_id) with
    | true =>
      rw [List.find?] at h
      rw [hx] at h
      cases h
      simp [set_sent, hx, List.find?]
    | false =>
      rw [List.find?] at h
      rw [hx] at h
      have hrec := ih h
      simp [set_sent, hx, List.find?, hrec]

theorem find_set_deleted (message_id : String) (l : List MessageObject)
    (m : MessageObject) (h : l.find? (fun x => x.id == message_id) = some m) :
    (set_deleted message_id l).find? (fun x => x.id == message_id)
      = some { m with deleted := true } := by
  induction l with
  | nil => simp [List.find?] at h
  | cons x xs ih =>
    cases hx : (x.id == message_id) with
    | true =>
      rw [List.find?] at h
      rw [hx] at h
      cases h
      simp [set_deleted, hx, List.find?]
    | false =>
      rw [List.find?] at h
      rw [hx] at h
      have hrec := ih h
      simp [set_deleted, hx, List.find?, hrec]

theorem le_foldl_max (l : List MessageInfo) (a : Nat) :
    a ≤ l.foldl (fun acc x => max acc x.created_at) a := by
  induction l generalizing a with
  | nil => exact le_refl a
  | cons x xs ih =>
    exact le_trans (le_max_left a x.created_at) (ih (max a x.created_at))

theorem mem_le_foldl_max (l : List MessageInfo) (a : Nat) (m : MessageInfo)
    (hm : m ∈ l) :
    m.created_at ≤ l.foldl (fun acc x => max acc x.created_at) a := by
  induction l generalizing a with
  | nil => cases hm
  | cons x xs ih =>
    rcases List.mem_cons.mp hm with h | h
    · rw [h]
      exact le_trans (le_max_right a x.created_at) (le_foldl_max xs (max a x.created_at))
    · exact ih (max a x.created_at) h

/-! Claim results. -/

/-- C6: the first-ever call to the poll step (cursor still 0) returns an
empty list of work items regardless of what the backend returns, so a
non-empty backend response on the first cycle yields zero triggered
generations. -/
theorem c6_first_poll_empty (current_user_id bot_group_id : String)
    (backend : List RawMsg) :
    (poll_new_messages 0 current_user_id bot_group_id backend).1 = [] := by
  simp [poll_new_messages]

/-- C3 counterexample: a platform-client failure during the fetch step of a
cycle is logged, but the loop then sleeps the configured 120-second interval,
not the fixed 60-second recovery sleep the claim asserts. -/
theorem c3_counterexample :
    polling_loop_iteration false 120 (Except.error "network failure") true
      = LoopStep.continues
          { logged_error := some "Error processing polling cycle: network failure"
            replies_launched := 0
            random_launched := false } 120 ∧
    (120 : Nat) ≠ 60 := by
  exact ⟨rfl, by decide⟩

/-- C3 amended: every error raised during a cycle's fetch/evaluate/trigger
steps is caught and logged inside the cycle handler itself; the loop then
sleeps the configured polling interval (the 60-second recovery branch is
reserved for errors escaping the cycle handler, which these never do), and no
such error terminates the loop. -/
theorem c3_cycle_error_logged_interval_sleep (polling_interval : Nat) (e : String)
    (should_random : Bool) (fetch : Except String (List MessageInfo)) :
    polling_loop_iteration false polling_interval (Except.error e) should_random
      = LoopStep.continues
          { logged_error := some ("Error processing polling cycle: " ++ e)
            replies_launched := 0
            random_launched := false } polling_interval ∧
    polling_loop_iteration false polling_interval fetch should_random
      ≠ LoopStep.stopped := by
  constructor
  · rfl
  · unfold polling_loop_iteration
    cases hr : process_polling_cycle fetch should_random <;> simp [hr]

/-- C5 counterexample: a schedule on which the second attempt completes
before the first, so completion order is B then A, yet the entity's
candidates come out in launch order A then B — candidate order is not
attempt-completion order. -/
theorem c5_counterexample :
    completionOrder
        [{ completion_time := 2, outcome := Except.ok "A" },
         { completion_time := 1, outcome := Except.ok "B" }]
      = [Except.ok "B", Except.ok "A"] ∧
    (execute_generation_tasks (mkMessageObject "random" none none none 0)
        [{ completion_time := 2, outcome := Except.ok "A" },
         { completion_time := 1, outcome := Except.ok "B" }]
        "random").generated_messages = ["A", "B"] ∧
    (["A", "B"] : List String) ≠ ["B", "A"] := by
  exact ⟨rfl, rfl, by decide⟩

/-- C5 amended: the batch collects outcomes with gather, which returns them
in the order the attempts were launched, so candidates are appended in launch
order, and the result is identical under every reassignment of completion
times — candidate order never depends on the completion schedule. -/
theorem c5_candidates_in_launch_order (m : MessageObject) (tasks : List GenTask)
    (message_type : String) (f : Nat → Nat) :
    (execute_generation_tasks m tasks message_type).generated_messages
      = m.generated_messages
          ++ tasks.map (fun task => renderOutcome message_type task.outcome) ∧
    execute_generation_tasks m (retime f tasks) message_type
      = execute_generation_tasks m tasks message_type := by
  constructor
  · exact execute_messages m tasks message_type
  · have hmap : tasks.map (GenTask.outcome ∘ fun task =>
        ({ completion_time := f task.completion_time,
           outcome := task.outcome } : GenTask))
        = tasks.map GenTask.outcome := by
      induction tasks with
      | nil => rfl
      | cons t ts ih => simp only [List.map_cons, Function.comp_apply, ih]
    unfold execute_generation_tasks gather retime
    rw [List.map_map, hmap]

/-- C9: two message entities created during the same wall-clock millisecond
are distinct entities (here a random one and a reply) yet receive the same
id, violating uniqueness within the process lifetime. -/
theorem c9_id_collision :
    (mkMessageObject "random" none none none 1730000000123).id
      = (mkMessageObject "reply" (some "42") (some "hi") (some "alice")
          1730000000123).id ∧
    mkMessageObject "random" none none none 1730000000123
      ≠ mkMessageObject "reply" (some "42") (some "hi") (some "alice")
          1730000000123 := by
  refine ⟨rfl, fun h => ?_⟩
  exact absurd (congrArg MessageObject.message_type h) (by decide)

/-- C7: a configuration update whose polling interval is ≤ 0 or > 3600 is
rejected synchronously with an error, and the stored configuration —
including the prior polling interval — is unchanged after the call. -/
theorem c7_reject_bad_interval (c : Config) (n : NewConfig) (p : Int)
    (hp : n.polling_interval_seconds = some p) (hbad : p ≤ 0 ∨ 3600 < p) :
    (∃ e, update_config c n = Except.error e) ∧ update_config_state c n = c := by
  have heq : update_config c n
      = if p ≤ 0 then
          Except.error "Polling interval must be greater than 0 seconds"
        else if p > 3600 then
          Except.error "Polling interval cannot be more than 3600 seconds (1 hour)"
        else Except.ok (c.applyUpdate n) := by
    unfold update_config
    rw [hp]
  have herr : ∃ e, update_config c n = Except.error e := by
    rcases hbad with h | h
    · exact ⟨_, by rw [heq, if_pos h]⟩
    · have h0 : ¬ p ≤ 0 := by omega
      exact ⟨_, by rw [heq, if_neg h0, if_pos h]⟩
  obtain ⟨e, he⟩ := herr
  refine ⟨⟨e, he⟩, ?_⟩
  unfold update_config_state
  rw [he]

/-- C7 witness: both the interval-0 and the interval-3601 updates against the
default configuration are rejected and leave the store unchanged. -/
theorem c7_witness :
    ((∃ e, update_config testConfig updateZero = Except.error e) ∧
      update_config_state testConfig updateZero = testConfig) ∧
    ((∃ e, update_config testConfig updateTooLarge = Except.error e) ∧
      update_config_state testConfig updateTooLarge = testConfig) :=
  ⟨c7_reject_bad_interval testConfig updateZero 0 rfl (Or.inl (by decide)),
   c7_reject_bad_interval testConfig updateTooLarge 3601 rfl (Or.inr (by decide))⟩

/-- C1 counterexample: deleting the catalog entity with id 77 and then
marking it sent leaves it with sent and deleted both true — the second,
conflicting call is neither rejected nor a no-op. -/
theorem c1_counterexample :
    ((mark_message_sent (delete_message testStateWithEntity "77") "77").messages.map
        (fun m => m.sent && m.deleted)) = [true] := by
  decide

/-- C1 amended: mark_message_sent and delete_message each set their flag
unconditionally on the first entity with the given id; after the two calls in
either order the entity has sent and deleted both true, so the flags are not
mutually exclusive and the second call is neither rejected nor a no-op. -/
theorem c1_both_flags_after_both_calls (st : ManagerState) (message_id : String)
    (m : MessageObject)
    (h : get_message_by_id st.messages message_id = some m) :
    get_message_by_id
        (mark_message_sent (delete_message st message_id) message_id).messages
        message_id
      = some { m with sent := true, deleted := true } ∧
    get_message_by_id
        (delete_message (mark_message_sent st message_id) message_id).messages
        message_id
      = some { m with sent := true, deleted := true } := by
  constructor
  · exact find_set_sent message_id _ _ (find_set_deleted message_id _ _ h)
  · exact find_set_deleted message_id _ _ (find_set_sent message_id _ _ h)

/-- C1 witness: the two-call scenario on the concrete entity with id 77. -/
theorem c1_witness :
    get_message_by_id testStateWithEntity.messages "77"
      = some (mkMessageObject "manual" none none none 77) ∧
    (get_message_by_id
        (mark_message_sent (delete_message testStateWithEntity "77") "77").messages
        "77"
      = some { mkMessageObject "manual" none none none 77 with
                sent := true, deleted := true } ∧
     get_message_by_id
        (delete_message (mark_message_sent testStateWithEntity "77") "77").messages
        "77"
      = some { mkMessageObject "manual" none none none 77 with
                sent := true, deleted := true }) :=
  ⟨by decide,
   c1_both_flags_after_both_calls testStateWithEntity "77"
     (mkMessageObject "manual" none none none 77) (by decide)⟩

/-- C2: for every width ≥ 1 (the configured number of tries) and every
assignment of outcomes to the attempts, once the batch completes and
generating is false the entity's candidates list has length exactly width,
and each failed attempt is recorded at its slot as the human-readable error
marker rather than dropped. -/
theorem c2_batch_width (st : ManagerState) (time_ms now : Nat)
    (attempt : Nat → GenTask)
    (_hw : 1 ≤ st.config.message_generation_tries) :
    (generate_random_message st time_ms now attempt).1.generating = false ∧
    (generate_random_message st time_ms now attempt).1.generated_messages.length
      = st.config.message_generation_tries ∧
    ∀ i e, i < st.config.message_generation_tries →
      (attempt i).outcome = Except.error e →
      (generate_random_message st time_ms now attempt).1.generated_messages[i]?
        = some ("Error generating " ++ "random" ++ ": " ++ e) := by
  have hmsgs : (generate_random_message st time_ms now attempt).1.generated_messages
      = ((List.range st.config.message_generation_tries).map attempt).map
          (fun task => renderOutcome "random" task.outcome) := by
    show (stop_generation (execute_generation_tasks _ _ _)).generated_messages = _
    rw [stop_generation, execute_messages]
    rfl
  refine ⟨rfl, ?_, ?_⟩
  · rw [hmsgs]
    simp
  · intro i e hi he
    rw [hmsgs]
    rw [List.getElem?_map, List.getElem?_map, List.getElem?_range hi]
    simp [renderOutcome, he]

/-- C2 witness: with the configured width 3 and the schedule two successes
plus one failure, the finished entity has exactly three candidates and the
failed third attempt is recorded as the error marker. -/
theorem c2_witness :
    1 ≤ (3 : Nat) ∧
    ((generate_random_message testState 1000 2000 attemptsABFail).1.generating = false ∧
     (generate_random_message testState 1000 2000 attemptsABFail).1.generated_messages.length
       = 3 ∧
     ∀ i e, i < 3 → (attemptsABFail i).outcome = Except.error e →
       (generate_random_message testState 1000 2000 attemptsABFail).1.generated_messages[i]?
         = some ("Error generating " ++ "random" ++ ": " ++ e)) :=
  ⟨by decide, c2_batch_width testState 1000 2000 attemptsABFail (by decide)⟩

/-- C4 counterexample: the text KELLER contains the trigger keyword up to
letter case (lowercasing it yields a keller match), yet neither literal check
fires, the probability stays at the 1/100 floor, and the sample 1/2 produces
no reply — the keyword match is not case-insensitive and the trigger is not
forced. -/
theorem c4_counterexample :
    strHasSub "keller" (String.map Char.toLower "KELLER") = true ∧
    strHasSub "Keller" "KELLER" = false ∧
    strHasSub "keller" "KELLER" = false ∧
    replyProbability testConfig 0 "KELLER" = 1/100 ∧
    (generate_reply_message testState "99" "KELLER" 0 "alice" (1/2) 0
        (fun i => attemptsABFail i)).1 = none := by
  refine ⟨by with_unfolding_all decide, by decide, by decide,
    by with_unfolding_all decide, by with_unfolding_all decide⟩

/-- C4 amended: for every text containing the literal substring Keller or
keller (matching is exact on those two casings, not case-insensitive) and
every likes count, the reply probability is raised by 1 to at least 1.0, so
every uniform sample in [0,1) triggers a reply. -/
theorem c4_keyword_always_triggers (st : ManagerState)
    (reply_to_id original_message : String) (likes : Nat) (username : String)
    (sample : ℚ) (time_ms : Nat) (attempt : Nat → GenTask)
    (hkw : (strHasSub "Keller" original_message
            || strHasSub "keller" original_message) = true)
    (hslope : 0 ≤ st.config.reply_chance_per_like)
    (hs1 : sample < 1) :
    1 ≤ replyProbability st.config likes original_message ∧
    (generate_reply_message st reply_to_id original_message likes username
        sample time_ms attempt).1 ≠ none := by
  have hbase : 0 ≤ min (st.config.reply_chance_per_like * (likes : ℚ)) 1 :=
    le_min (mul_nonneg hslope (Nat.cast_nonneg likes)) zero_le_one
  have hp : 1 ≤ replyProbability st.config likes original_message := by
    unfold replyProbability
    rw [hkw]
    simp only [if_true]
    split
    · rename_i hlt
      linarith
    · linarith
  refine ⟨hp, ?_⟩
  have hns : ¬ sample > replyProbability st.config likes original_message :=
    not_lt.mpr (le_trans (le_of_lt hs1) hp)
  unfold generate_reply_message
  rw [if_neg hns]
  simp

/-- C4 witness: a text containing the literal Keller always triggers, here
with 2 likes and sample 1/2. -/
theorem c4_witness :
    (strHasSub "Keller" "yo Keller what up"
      || strHasSub "keller" "yo Keller what up") = true ∧
    (0 : ℚ) ≤ testState.config.reply_chance_per_like ∧
    (1 : ℚ)/2 < 1 ∧
    (1 ≤ replyProbability testState.config 2 "yo Keller what up" ∧
     (generate_reply_message testState "99" "yo Keller what up" 2 "bob" (1/2) 0
        attemptsABFail).1 ≠ none) :=
  ⟨by decide, by with_unfolding_all decide, by with_unfolding_all decide,
   c4_keyword_always_triggers testState "99" "yo Keller what up" 2 "bob" (1/2) 0
     attemptsABFail (by decide) (by with_unfolding_all decide)
     (by with_unfolding_all decide)⟩

/-- C8: the random trigger probability is random_messages_per_day divided by
86400 / polling_interval_seconds, and the trigger fires iff the uniform
sample in [0,1) is below it; when the daily target equals the cycles per day
the probability is exactly 1 and every possible sample triggers. -/
theorem c8_probability_one (st : ManagerState) (now : Nat) (sample : ℚ)
    (hpos : 0 < st.config.polling_interval_seconds)
    (htarget : st.config.random_messages_per_day
        = 86400 / (st.config.polling_interval_seconds : ℚ))
    (_hs0 : 0 ≤ sample) (hs1 : sample < 1) :
    probability_per_cycle st.config = 1 ∧
    (should_send_random_message st now sample).1 = true := by
  have hq : (0 : ℚ) < (st.config.polling_interval_seconds : ℚ) := by
    exact_mod_cast hpos
  have hcyc : (0 : ℚ) < 86400 / (st.config.polling_interval_seconds : ℚ) :=
    div_pos (by norm_num) hq
  have hprob : probability_per_cycle st.config = 1 := by
    unfold probability_per_cycle
    rw [htarget]
    exact div_self (ne_of_gt hcyc)
  refine ⟨hprob, ?_⟩
  have hcfg : (if (now - st.last_random_message_time) / 86400 ≥ 1 then
        reset_daily_counter st now
      else st).config = st.config := by
    split <;> rfl
  show decide (sample < probability_per_cycle _) = true
  rw [hcfg, hprob]
  exact decide_eq_true hs1

set_option maxRecDepth 8000 in
/-- C8 witness: with a 120-second interval the cycles per day are 720; a
target of 720 per day gives probability exactly 1 and the sample 1/2
triggers. -/
theorem c8_witness :
    (0 : Int) < testStateFullRate.config.polling_interval_seconds ∧
    testStateFullRate.config.random_messages_per_day
      = 86400 / ((testStateFullRate.config.polling_interval_seconds : Int) : ℚ) ∧
    (0 : ℚ) ≤ 1/2 ∧ (1 : ℚ)/2 < 1 ∧
    (probability_per_cycle testStateFullRate.config = 1 ∧
     (should_send_random_message testStateFullRate 0 (1/2)).1 = true) :=
  ⟨by decide, by with_unfolding_all decide,
   by with_unfolding_all decide, by with_unfolding_all decide,
   c8_probability_one testStateFullRate 0 (1/2) (by decide)
     (by with_unfolding_all decide)
     (by with_unfolding_all decide) (by with_unfolding_all decide)⟩

/-- C10: the poll step advances its cursor only on new foreign messages; when
the first-ever poll finds none, the cursor stays 0 and the next poll is still
treated as the first run — it advances the cursor past every foreign message
that arrived since startup yet returns an empty list, and those messages can
never be returned by a later poll: they are silently dropped. -/
theorem c10_cursor_advances_but_drops (current_user_id bot_group_id : String)
    (backend1 backend2 : List RawMsg)
    (h1 : newForeign 0 current_user_id backend1 = []) :
    poll_new_messages 0 current_user_id bot_group_id backend1 = ([], 0) ∧
    (poll_new_messages 0 current_user_id bot_group_id backend2).1 = [] ∧
    (∀ m ∈ newForeign 0 current_user_id backend2,
      m.created_at
        ≤ (poll_new_messages 0 current_user_id bot_group_id backend2).2) ∧
    (∀ m ∈ newForeign 0 current_user_id backend2,
      m ∉ newForeign (poll_new_messages 0 current_user_id bot_group_id backend2).2
            current_user_id backend2) := by
  refine ⟨?_, ?_, ?_, ?_⟩
  · simp [poll_new_messages, h1]
  · simp [poll_new_messages]
  · intro m hm
    have hmemmap : mkMessageInfo bot_group_id m
        ∈ (newForeign 0 current_user_id backend2).map (mkMessageInfo bot_group_id) :=
      List.mem_map_of_mem _ hm
    have hne : ((newForeign 0 current_user_id backend2).map
        (mkMessageInfo bot_group_id)).isEmpty = false := by
      rcases hempty : ((newForeign 0 current_user_id backend2).map
          (mkMessageInfo bot_group_id)).isEmpty with _ | _
      · rfl
      · rw [List.isEmpty_iff] at hempty
        rw [hempty] at hmemmap
        cases hmemmap
    have hcursor : (poll_new_messages 0 current_user_id bot_group_id backend2).2
        = ((newForeign 0 current_user_id backend2).map
            (mkMessageInfo bot_group_id)).foldl (fun acc x => max acc x.created_at) 0 := by
      simp [poll_new_messages, hne]
    rw [hcursor]
    exact mem_le_foldl_max _ 0 _ hmemmap
  · intro m hm hmem2
    have hle : m.created_at
        ≤ (poll_new_messages 0 current_user_id bot_group_id backend2).2 := by
      have hmemmap : mkMessageInfo bot_group_id m
          ∈ (newForeign 0 current_user_id backend2).map (mkMessageInfo bot_group_id) :=
        List.mem_map_of_mem _ hm
      have hne : ((newForeign 0 current_user_id backend2).map
          (mkMessageInfo bot_group_id)).isEmpty = false := by
        rcases hempty : ((newForeign 0 current_user_id backend2).map
            (mkMessageInfo bot_group_id)).isEmpty with _ | _
        · rfl
        · rw [List.isEmpty_iff] at hempty
          rw [hempty] at hmemmap
          cases hmemmap
      have hcursor : (poll_new_messages 0 current_user_id bot_group_id backend2).2
          = ((newForeign 0 current_user_id backend2).map
              (mkMessageInfo bot_group_id)).foldl (fun acc x => max acc x.created_at) 0 := by
        simp [poll_new_messages, hne]
      rw [hcursor]
      exact mem_le_foldl_max _ 0 _ hmemmap
    have hgt : (poll_new_messages 0 current_user_id bot_group_id backend2).2
        < m.created_at := by
      have := List.mem_filter.mp hmem2
      have hcond := this.2
      rw [Bool.and_eq_true] at hcond
      exact of_decide_eq_true hcond.1
    omega

/-- C10 witness: a first poll seeing only the bot's own message leaves the
cursor at 0; the second poll, seeing a foreign message stamped 5, returns
nothing while advancing the cursor to 5, after which that message can never
be polled again. -/
theorem c10_witness :
    newForeign 0 "botuser" backendOwnOnly = [] ∧
    (poll_new_messages 0 "botuser" "g1" backendOwnOnly = ([], 0) ∧
     (poll_new_messages 0 "botuser" "g1" backendForeign).1 = [] ∧
     (∀ m ∈ newForeign 0 "botuser" backendForeign,
       m.created_at ≤ (poll_new_messages 0 "botuser" "g1" backendForeign).2) ∧
     (∀ m ∈ newForeign 0 "botuser" backendForeign,
       m ∉ newForeign (poll_new_messages 0 "botuser" "g1" backendForeign).2
             "botuser" backendForeign)) :=
  ⟨by decide,
   c10_cursor_advances_but_drops "botuser" "g1" backendOwnOnly backendForeign
     (by decide)⟩
